import Mathlib

/-!
Shallow embedding of the per-vCPU virtualization core of `x86_vcpu`
(Intel VMX path plus the AMD SVM permission maps), together with proofs
about the behaviours described in its specification.

Machine integers are modelled as `Nat` with explicit masking where
overflow or width matters.  Fallible operations return `Except` /
`Option`; a Rust `unwrap()` on `None` or an `unreachable!` is modelled
by a distinguished outcome rather than by a Lean error.
-/

namespace X86Vcpu

/-- Error kinds of the `axerrno` crate used by the source
(`AxResult = Result<_, AxError>`).  Only the variants the embedded code
can produce are listed. -/
inductive AxError where
  | Unsupported
  | ResourceBusy
  | BadState
  | InvalidInput
  | NoMemory
  deriving DecidableEq, Repr

/-! ## C9: `VmxVcpu::set_interrupt_window` (src/vmx/vcpu.rs:305) -/

/-- The `INTERRUPT_WINDOW_EXITING` bit of the 32-bit primary
processor-based execution controls (bit 2; the `PrimaryControls`
constant referenced by the source). -/
def interruptWindowExitingBits : Nat := 1 <<< 2

/-- Function `VmxVcpu::set_interrupt_window` (src/vmx/vcpu.rs:305-315): read the
32-bit `PRIMARY_PROCBASED_EXEC_CONTROLS` field, OR in or AND out the
interrupt-window-exiting bit (`!bits` is the u32 complement), and write
the field back.  The VMCS field value is the `ctrl` argument; the result
is the value written back. -/
def set_interrupt_window (enable : Bool) (ctrl : Nat) : Nat :=
  if enable then ctrl ||| interruptWindowExitingBits
  else ctrl &&& ((2 ^ 32 - 1) ^^^ interruptWindowExitingBits)

/-! ## C10: `MSRPm::set_intercept` (src/svm/structs.rs:127) -/

/-- The MSR index is inside one of the three ranges covered by the SVM
MSR permission map (the three dispatch arms of `MSRPm::set_intercept`). -/
def msrpmInRange (msr : Nat) : Prop :=
  msr ≤ 0x1fff ∨ (0xc0000000 ≤ msr ∧ msr ≤ 0xc0001fff) ∨
    (0xc0010000 ≤ msr ∧ msr ≤ 0xc0011fff)

instance (msr : Nat) : Decidable (msrpmInRange msr) := by
  unfold msrpmInRange; infer_instance

/-- Body of `MSRPm::set_intercept` after the range dispatch
(src/svm/structs.rs:138-157): compute the byte offset
`segment * 2048 + msr_low / 4` and the bit offset
`(msr_low & 0b11) * 2 + is_write`, then set or clear that bit of the
byte (`!` on a `u8` is the 8-bit complement `255 ^^^ ·`). -/
def msrpmUpdateByte (intercept : Bool) (old bit_offset : Nat) : Nat :=
  if intercept then old ||| (1 <<< bit_offset)
  else old &&& ((2 ^ 8 - 1) ^^^ (1 <<< bit_offset))

/-- The map after `MSRPm::set_intercept` writes the targeted byte
(`base_offset + byte_in_segment`, with `bit_offset` as in the source). -/
def msrpmApply (is_write intercept : Bool) (m : Nat → Nat)
    (segment msr_low : Nat) : Nat → Nat :=
  fun j =>
    if j = segment * 2048 + msr_low / 4 then
      msrpmUpdateByte intercept (m (segment * 2048 + msr_low / 4))
        ((msr_low &&& 0b11) * 2 + (if is_write then 1 else 0))
    else m j

/-- Function `MSRPm::set_intercept` (src/svm/structs.rs:127-158).  The two
contiguous pages of the permission map are modelled as a byte array
`m : Nat → Nat` (index `→` byte).  An MSR index outside the three
ranges hits `unreachable!`, modelled as `none`. -/
def MSRPm.set_intercept (msr : Nat) (is_write : Bool) (intercept : Bool)
    (m : Nat → Nat) : Option (Nat → Nat) :=
  if msr ≤ 0x1fff then
    some (msrpmApply is_write intercept m 0 msr)
  else if 0xc0000000 ≤ msr ∧ msr ≤ 0xc0001fff then
    some (msrpmApply is_write intercept m 1 (msr &&& 0x1fff))
  else if 0xc0010000 ≤ msr ∧ msr ≤ 0xc0011fff then
    some (msrpmApply is_write intercept m 2 (msr &&& 0x1fff))
  else
    none

/-- Function `MSRPm::set_read_intercept` (src/svm/structs.rs:160). -/
def MSRPm.set_read_intercept (msr : Nat) (intercept : Bool) (m : Nat → Nat) :
    Option (Nat → Nat) :=
  MSRPm.set_intercept msr false intercept m

/-- Function `MSRPm::set_write_intercept` (src/svm/structs.rs:164). -/
def MSRPm.set_write_intercept (msr : Nat) (intercept : Bool) (m : Nat → Nat) :
    Option (Nat → Nat) :=
  MSRPm.set_intercept msr true intercept m

/-! ### Bit-manipulation helper lemmas -/

lemma testBit_or_pow (a b i : Nat) :
    (a ||| (1 <<< b)).testBit i = (a.testBit i || decide (b = i)) := by
  rw [Nat.testBit_or, Nat.one_shiftLeft, Nat.testBit_two_pow]

lemma testBit_and_mask_pow (a b i w : Nat) (hi : i < w) :
    (a &&& ((2 ^ w - 1) ^^^ (1 <<< b))).testBit i
      = (a.testBit i && !decide (b = i)) := by
  rw [Nat.testBit_and, Nat.testBit_xor, Nat.one_shiftLeft, Nat.testBit_two_pow,
    Nat.testBit_two_pow_sub_one]
  simp [hi]

lemma testBit_of_lt_32 (a i : Nat) (ha : a < 2 ^ 32) (hi : 32 ≤ i) :
    a.testBit i = false := by
  apply Nat.testBit_lt_two_pow
  exact lt_of_lt_of_le ha (Nat.pow_le_pow_right (by norm_num) hi)

/-- C9: for both `enable = true` and `enable = false`,
`set_interrupt_window` changes only the `INTERRUPT_WINDOW_EXITING` bit
(bit 2) of the 32-bit primary processor-based execution-controls field:
afterwards that bit equals `enable`, and every other bit keeps the value
it had before the call. -/
theorem set_interrupt_window_frame (enable : Bool) (ctrl : Nat)
    (h : ctrl < 2 ^ 32) :
    (set_interrupt_window enable ctrl).testBit 2 = enable ∧
      ∀ i, i ≠ 2 →
        (set_interrupt_window enable ctrl).testBit i = ctrl.testBit i := by
  unfold set_interrupt_window interruptWindowExitingBits
  cases enable with
  | true =>
    simp only [if_pos]
    refine ⟨by rw [testBit_or_pow]; simp, fun i hi => ?_⟩
    rw [testBit_or_pow]
    simp [show ¬((2 : Nat) = i) from fun hc => hi hc.symm]
  | false =>
    simp only [Bool.false_eq_true, if_neg, not_false_iff]
    refine ⟨by rw [testBit_and_mask_pow _ _ _ 32 (by norm_num)]; simp,
      fun i hi => ?_⟩
    by_cases hlt : i < 32
    · rw [testBit_and_mask_pow _ _ _ 32 hlt]
      simp [show ¬((2 : Nat) = i) from fun hc => hi hc.symm]
    · rw [Nat.testBit_and, testBit_of_lt_32 ctrl i h (le_of_not_lt hlt)]
      simp

/-- Witness for `set_interrupt_window_frame` at a concrete input. -/
theorem set_interrupt_window_frame_witness :
    (set_interrupt_window true 0xb5186dfa).testBit 2 = true ∧
      ∀ i, i ≠ 2 →
        (set_interrupt_window true 0xb5186dfa).testBit i
          = (0xb5186dfa : Nat).testBit i :=
  set_interrupt_window_frame true 0xb5186dfa (by norm_num)

/-- The byte index inside the MSR permission map targeted by
`MSRPm::set_intercept` for an in-range MSR. -/
def msrpmByteIndex (msr : Nat) : Nat :=
  if msr ≤ 0x1fff then msr / 4
  else if msr ≤ 0xc0001fff then 2048 + (msr &&& 0x1fff) / 4
  else 4096 + (msr &&& 0x1fff) / 4

/-- The bit index inside the targeted byte. -/
def msrpmBitIndex (msr : Nat) (is_write : Bool) : Nat :=
  (msr &&& 0b11) * 2 + (if is_write then 1 else 0)

lemma msrpmBitIndex_lt (msr : Nat) (iw : Bool) : msrpmBitIndex msr iw < 8 := by
  unfold msrpmBitIndex
  have h3 : msr &&& 0b11 < 4 := Nat.and_lt_two_pow msr (by norm_num : (0b11 : Nat) < 2 ^ 2)
  cases iw <;> simp <;> omega

lemma and_mask_and_three (msr : Nat) :
    (msr &&& 0x1fff) &&& 0b11 = msr &&& 0b11 := by
  rw [Nat.and_assoc, show (0x1fff &&& 0b11 : Nat) = 0b11 from by decide]

lemma msrpmUpdateByte_testBit_self (ic : Bool) (old b : Nat) (hb : b < 8) :
    (msrpmUpdateByte ic old b).testBit b = ic := by
  unfold msrpmUpdateByte
  cases ic with
  | true => rw [if_pos rfl, testBit_or_pow]; simp
  | false =>
    rw [if_neg (by simp), testBit_and_mask_pow _ _ _ 8 hb]; simp

lemma msrpmUpdateByte_testBit_other (ic : Bool) (old b b' : Nat)
    (hb' : b' < 8) (hne : b' ≠ b) :
    (msrpmUpdateByte ic old b).testBit b' = old.testBit b' := by
  have h : ¬(b = b') := fun hc => hne hc.symm
  unfold msrpmUpdateByte
  cases ic with
  | true => rw [if_pos rfl, testBit_or_pow]; simp [h]
  | false =>
    rw [if_neg (by simp), testBit_and_mask_pow _ _ _ 8 hb']; simp [h]

lemma msrpmApply_spec (iw ic : Bool) (m : Nat → Nat) (segment msr_low idx : Nat)
    (hidx : idx = segment * 2048 + msr_low / 4)
    (hb : (msr_low &&& 0b11) * 2 + (if iw then 1 else 0) < 8) :
    (∀ j, j ≠ idx → msrpmApply iw ic m segment msr_low j = m j) ∧
      ((msrpmApply iw ic m segment msr_low idx).testBit
          ((msr_low &&& 0b11) * 2 + (if iw then 1 else 0)) = ic) ∧
      (∀ b, b < 8 → b ≠ (msr_low &&& 0b11) * 2 + (if iw then 1 else 0) →
        (msrpmApply iw ic m segment msr_low idx).testBit b
          = (m idx).testBit b) := by
  subst hidx
  refine ⟨fun j hj => ?_, ?_, fun b hb8 hbne => ?_⟩
  · unfold msrpmApply
    rw [if_neg hj]
  · unfold msrpmApply
    rw [if_pos rfl]
    exact msrpmUpdateByte_testBit_self ic _ _ hb
  · unfold msrpmApply
    rw [if_pos rfl]
    exact msrpmUpdateByte_testBit_other ic _ _ _ hb8 hbne

/-- C10: for every MSR index inside the three architectural ranges
`0x0000..=0x1fff`, `0xc0000000..=0xc0001fff`, `0xc0010000..=0xc0011fff`,
`MSRPm::set_intercept` completes (no `unreachable!`) and updates exactly
one bit of the permission map: the targeted bit of the targeted byte is
set to `intercept`, every other bit of that byte is preserved, and every
other byte is untouched; for any MSR index outside the three ranges it
panics (`unreachable!`, modelled as `none`). -/
theorem msrpm_set_intercept_single_bit (msr : Nat) (iw ic : Bool)
    (m : Nat → Nat) :
    (msrpmInRange msr →
      ∃ m', MSRPm.set_intercept msr iw ic m = some m' ∧
        (∀ j, j ≠ msrpmByteIndex msr → m' j = m j) ∧
        (m' (msrpmByteIndex msr)).testBit (msrpmBitIndex msr iw) = ic ∧
        (∀ b, b < 8 → b ≠ msrpmBitIndex msr iw →
          (m' (msrpmByteIndex msr)).testBit b
            = (m (msrpmByteIndex msr)).testBit b)) ∧
      (¬msrpmInRange msr → MSRPm.set_intercept msr iw ic m = none) := by
  have hbit : (msr &&& 0b11) * 2 + (if iw then 1 else 0) < 8 := by
    have h3 : msr &&& 0b11 < 4 :=
      Nat.and_lt_two_pow msr (by norm_num : (0b11 : Nat) < 2 ^ 2)
    cases iw <;> simp <;> omega
  have hbit' : ((msr &&& 0x1fff) &&& 0b11) * 2 + (if iw then 1 else 0) < 8 := by
    rw [and_mask_and_three]; exact hbit
  constructor
  · intro h
    unfold MSRPm.set_intercept msrpmByteIndex msrpmBitIndex
    rcases le_or_lt msr 0x1fff with h1 | h1
    · rw [if_pos h1, if_pos h1]
      refine ⟨_, rfl, msrpmApply_spec iw ic m 0 msr (msr / 4) (by omega) hbit⟩
    · have h1' : ¬msr ≤ 0x1fff := by omega
      rw [if_neg h1', if_neg h1']
      rcases h with h | ⟨h2, h3⟩ | ⟨h2, h3⟩
      · omega
      · rw [if_pos ⟨h2, h3⟩, if_pos h3]
        have hs := msrpmApply_spec iw ic m 1 (msr &&& 0x1fff)
          (2048 + (msr &&& 0x1fff) / 4) (by omega) hbit'
        rw [and_mask_and_three] at hs
        exact ⟨_, rfl, hs⟩
      · have hno2 : ¬(0xc0000000 ≤ msr ∧ msr ≤ 0xc0001fff) := by omega
        have hno2' : ¬msr ≤ 0xc0001fff := by omega
        rw [if_neg hno2, if_pos ⟨h2, h3⟩, if_neg hno2']
        have hs := msrpmApply_spec iw ic m 2 (msr &&& 0x1fff)
          (4096 + (msr &&& 0x1fff) / 4) (by omega) hbit'
        rw [and_mask_and_three] at hs
        exact ⟨_, rfl, hs⟩
  · intro h
    unfold MSRPm.set_intercept
    unfold msrpmInRange at h
    rw [if_neg (by omega), if_neg (by omega), if_neg (by omega)]

/-- Witness for `msrpm_set_intercept_single_bit` at a concrete input
(MSR `0xc0000080`, i.e. `IA32_EFER`, write intercept on an all-zero map). -/
theorem msrpm_set_intercept_single_bit_witness :
    ((msrpmInRange 0xc0000080 →
      ∃ m', MSRPm.set_intercept 0xc0000080 true true (fun _ => 0) = some m' ∧
        (∀ j, j ≠ msrpmByteIndex 0xc0000080 → m' j = (fun _ => (0 : Nat)) j) ∧
        (m' (msrpmByteIndex 0xc0000080)).testBit (msrpmBitIndex 0xc0000080 true)
          = true ∧
        (∀ b, b < 8 → b ≠ msrpmBitIndex 0xc0000080 true →
          (m' (msrpmByteIndex 0xc0000080)).testBit b
            = ((fun _ => (0 : Nat)) (msrpmByteIndex 0xc0000080)).testBit b)) ∧
      (¬msrpmInRange 0xc0000080 →
        MSRPm.set_intercept 0xc0000080 true true (fun _ => 0) = none)) ∧
      msrpmInRange 0xc0000080 :=
  ⟨msrpm_set_intercept_single_bit 0xc0000080 true true (fun _ => 0),
    by decide⟩

/-! ### Claim C2: `VmxVcpu::handle_xsetbv` (src/vmx/vcpu.rs:1175) -/

/-- Bit masks of the `x86` crate's `Xcr0` bitflags used by `handle_xsetbv`. -/
def XCR0_FPU_MMX_STATE : Nat := 1 <<< 0

def XCR0_SSE_STATE : Nat := 1 <<< 1

def XCR0_AVX_STATE : Nat := 1 <<< 2

def XCR0_BNDREG_STATE : Nat := 1 <<< 3

def XCR0_BNDCSR_STATE : Nat := 1 <<< 4

def XCR0_OPMASK_STATE : Nat := 1 <<< 5

def XCR0_ZMM_HI256_STATE : Nat := 1 <<< 6

def XCR0_HI16_ZMM_STATE : Nat := 1 <<< 7

def XCR0_PKRU_STATE : Nat := 1 <<< 9

/-- All bits defined by the `Xcr0` bitflags type. -/
def xcr0AllBits : Nat :=
  XCR0_FPU_MMX_STATE ||| XCR0_SSE_STATE ||| XCR0_AVX_STATE |||
    XCR0_BNDREG_STATE ||| XCR0_BNDCSR_STATE ||| XCR0_OPMASK_STATE |||
    XCR0_ZMM_HI256_STATE ||| XCR0_HI16_ZMM_STATE ||| XCR0_PKRU_STATE

/-- Bitflags `Xcr0::from_bits`: `some` iff no undefined bit is set
(the argument is a u64 value). -/
def Xcr0.fromBits (v : Nat) : Option Nat :=
  if v &&& ((2 ^ 64 - 1) ^^^ xcr0AllBits) = 0 then some v else none

/-- Bitflags `contains` for a single-bit flag. -/
def xcr0Contains (v flag : Nat) : Bool := v &&& flag == flag

/-- The validation closure inside `handle_xsetbv`
(src/vmx/vcpu.rs:1184-1210), written exactly as the chain of early
`return None` tests in the source; note that the fourth test is the
source's single `||`-joined condition. -/
def xcr0ValidateBody (x : Nat) : Option Nat :=
  if !xcr0Contains x XCR0_FPU_MMX_STATE then none
  else if xcr0Contains x XCR0_AVX_STATE && !xcr0Contains x XCR0_SSE_STATE then
    none
  else if xcr0Contains x XCR0_BNDCSR_STATE != xcr0Contains x XCR0_BNDREG_STATE then
    none
  else if xcr0Contains x XCR0_OPMASK_STATE
      || xcr0Contains x XCR0_ZMM_HI256_STATE
      || xcr0Contains x XCR0_HI16_ZMM_STATE
      || !xcr0Contains x XCR0_AVX_STATE
      || !xcr0Contains x XCR0_OPMASK_STATE
      || !xcr0Contains x XCR0_ZMM_HI256_STATE
      || !xcr0Contains x XCR0_HI16_ZMM_STATE then
    none
  else some x

/-- Composition `Xcr0::from_bits(value).and_then(closure)` from
`handle_xsetbv`. -/
def xcr0Validate (value : Nat) : Option Nat :=
  match Xcr0.fromBits value with
  | none => none
  | some x => xcr0ValidateBody x

/-- Guest state touched by `handle_xsetbv`: the three GPRs it reads, the
`XState::guest_xcr0` field it stores to, and guest RIP. -/
structure XsetbvCtx where
  rax : Nat
  rcx : Nat
  rdx : Nat
  guest_xcr0 : Nat
  rip : Nat
  deriving DecidableEq, Repr

/-- Function `VmxVcpu::handle_xsetbv` (src/vmx/vcpu.rs:1175-1220):
`index = rcx.get_bits(0..32)`, `value = rdx.get_bits(0..32) << 32 |
rax.get_bits(0..32)`; for index 0 run the validation closure, on success
store into `guest_xcr0` and advance RIP by 3, otherwise `InvalidInput`;
for any other index `Unsupported`. -/
def handle_xsetbv (c : XsetbvCtx) : Except AxError XsetbvCtx :=
  let index := c.rcx &&& (2 ^ 32 - 1)
  let value := ((c.rdx &&& (2 ^ 32 - 1)) <<< 32) ||| (c.rax &&& (2 ^ 32 - 1))
  if index = 0 then
    match xcr0Validate value with
    | some x => Except.ok { c with guest_xcr0 := x, rip := c.rip + 3 }
    | none => Except.error AxError.InvalidInput
  else
    Except.error AxError.Unsupported

lemma xcr0ValidateBody_none (x : Nat) : xcr0ValidateBody x = none := by
  unfold xcr0ValidateBody
  by_cases h1 : xcr0Contains x XCR0_FPU_MMX_STATE
  · rw [if_neg (by simp [h1])]
    by_cases h2 : xcr0Contains x XCR0_AVX_STATE
        && !xcr0Contains x XCR0_SSE_STATE
    · rw [if_pos h2]
    · rw [if_neg h2]
      by_cases h3 : xcr0Contains x XCR0_BNDCSR_STATE
          != xcr0Contains x XCR0_BNDREG_STATE
      · rw [if_pos h3]
      · rw [if_neg h3]
        rw [if_pos]
        cases hop : xcr0Contains x XCR0_OPMASK_STATE <;> simp [hop]
  · rw [if_pos (by simp [h1])]

lemma xcr0Validate_none (v : Nat) : xcr0Validate v = none := by
  unfold xcr0Validate
  cases hfb : Xcr0.fromBits v with
  | none => rfl
  | some x => exact xcr0ValidateBody_none x

/-- C2 (code bug): the XSETBV handler rejects every XCR0 value.  The
AVX-512 triad test at src/vmx/vcpu.rs:1198-1204 is a single `||`-chain
containing both `contains(OPMASK)` and `!contains(OPMASK)`, so it is a
tautology and the validation closure always returns `None`.  In
particular the minimal architecturally-valid value `FPU_MMX` (RAX = 1,
RDX = 0) with index 0 (RCX = 0) — which the claim says must be accepted,
stored into `guest_xcr0` and followed by a 3-byte RIP advance — is
refused with `InvalidInput`, and no input whatsoever reaches the store:
`xcr0Validate` is constantly `none`. -/
theorem handle_xsetbv_rejects_everything :
    handle_xsetbv ⟨1, 0, 0, 0, 0⟩ = Except.error AxError.InvalidInput ∧
      ∀ v : Nat, xcr0Validate v = none := by
  refine ⟨?_, xcr0Validate_none⟩
  unfold handle_xsetbv
  simp [xcr0Validate_none]

/-! ### Claim C4: `VmxVcpu::handle_cpuid` (src/vmx/vcpu.rs:1087) -/

/-- Result of the hardware `cpuid` instruction (`CpuIdResult` of the
`raw_cpuid` crate): four 32-bit registers. -/
structure CpuIdResult where
  eax : Nat
  ebx : Nat
  ecx : Nat
  edx : Nat
  deriving DecidableEq, Repr

/-- Guest state touched by `handle_cpuid`: the four GPRs it reads and
writes, plus guest RIP. -/
structure CpuidCtx where
  rax : Nat
  rbx : Nat
  rcx : Nat
  rdx : Nat
  rip : Nat
  deriving DecidableEq, Repr

/-- Little-endian packing of a list of bytes into one number (the
reinterpretation `&*(VENDOR_STR.as_ptr() as *const [u32; 3])` on a
little-endian machine). -/
def lePack : List Nat → Nat
  | [] => 0
  | b :: rest => (b &&& 0xff) ||| (lePack rest <<< 8)

/-- Byte values of `VENDOR_STR = b"RVMRVMRVMRVM"` (R = 0x52, V = 0x56,
M = 0x4D). -/
def vendorStrBytes : List Nat :=
  [0x52, 0x56, 0x4D, 0x52, 0x56, 0x4D, 0x52, 0x56, 0x4D, 0x52, 0x56, 0x4D]

/-- Word `i` (0, 1 or 2) of the vendor string viewed as `[u32; 3]`. -/
def vendorReg (i : Nat) : Nat :=
  lePack ((vendorStrBytes.drop (4 * i)).take 4)

/-- Clear bit `n` of a 32-bit value (`set_bit(n, false)` / `&= !mask`). -/
def clearBit32 (x n : Nat) : Nat := x &&& ((2 ^ 32 - 1) ^^^ (1 <<< n))

/-- Function `VmxVcpu::handle_cpuid` (src/vmx/vcpu.rs:1087-1173).  The
hardware `cpuid` instruction is an oracle parameter
`hostCpuid leaf subleaf`; `load_guest_xstate` / `load_host_xstate` have
empty bodies in the source and are omitted.  After computing the result
the four guest GPRs are overwritten with the zero-extended 32-bit values
and RIP advances by 2. -/
def handle_cpuid (hostCpuid : Nat → Nat → CpuIdResult) (c : CpuidCtx) :
    CpuidCtx :=
  let function := c.rax &&& (2 ^ 32 - 1)
  let res : CpuIdResult :=
    if function = 0x1 then
      let r := hostCpuid c.rax c.rcx
      { r with
        ecx := clearBit32 r.ecx 5 ||| (1 <<< 31),
        eax := clearBit32 r.eax 7 }
    else if function = 0x7 then
      let r := hostCpuid c.rax c.rcx
      if c.rcx = 0 then
        { r with ecx := clearBit32 (clearBit32 r.ecx 5) 16 }
      else r
    else if function = 0xd then
      hostCpuid c.rax c.rcx
    else if function = 0x40000000 then
      { eax := 0x40000001, ebx := vendorReg 0, ecx := vendorReg 1,
        edx := vendorReg 2 }
    else if function = 0x40000001 then
      { eax := 0, ebx := 0, ecx := 0, edx := 0 }
    else if function = 0x16 then
      let r := hostCpuid c.rax c.rcx
      if r.eax = 0 then { r with eax := 3000 } else r
    else
      hostCpuid c.rax c.rcx
  { rax := res.eax, rbx := res.ebx, rcx := res.ecx, rdx := res.edx,
    rip := c.rip + 2 }

/-- C4 counterexample: with guest RAX = 0x40000000 the handler leaves
RCX = 0x56524D56 and RDX = 0x4D56524D (the little-endian packing of
"VMRV" and "MRVM"), not the claimed RCX = 0x4D525652 / RDX = 0x56524D52. -/
theorem handle_cpuid_hypervisor_leaf_counterexample :
    (handle_cpuid (fun _ _ => ⟨0, 0, 0, 0⟩) ⟨0x40000000, 0, 0, 0, 0⟩).rcx
        = 0x56524D56 ∧
      (handle_cpuid (fun _ _ => ⟨0, 0, 0, 0⟩) ⟨0x40000000, 0, 0, 0, 0⟩).rdx
        = 0x4D56524D ∧
      (0x56524D56 : Nat) ≠ 0x4D525652 ∧ (0x4D56524D : Nat) ≠ 0x56524D52 := by
  decide

/-- C4 (amended): when the guest executes CPUID with
RAX = 0x4000_0000 (low 32 bits), the handler returns
RAX = 0x40000001, RBX = 0x524D5652, RCX = 0x56524D56,
RDX = 0x4D56524D — the twelve bytes "RVMRVMRVMRVM" packed little-endian
across EBX/ECX/EDX — and advances guest RIP by 2, for every host-CPUID
oracle and every other-register content. -/
theorem handle_cpuid_hypervisor_leaf (hostCpuid : Nat → Nat → CpuIdResult)
    (c : CpuidCtx) (h : c.rax &&& (2 ^ 32 - 1) = 0x40000000) :
    handle_cpuid hostCpuid c
      = { rax := 0x40000001, rbx := 0x524D5652, rcx := 0x56524D56,
          rdx := 0x4D56524D, rip := c.rip + 2 } := by
  have v0 : vendorReg 0 = 0x524D5652 := by decide
  have v1 : vendorReg 1 = 0x56524D56 := by decide
  have v2 : vendorReg 2 = 0x4D56524D := by decide
  have h' : c.rax &&& 4294967295 = 0x40000000 := by
    have := h; norm_num at this ⊢; exact this
  simp [handle_cpuid, h', v0, v1, v2]

/-- Witness for `handle_cpuid_hypervisor_leaf` at a concrete input. -/
theorem handle_cpuid_hypervisor_leaf_witness :
    handle_cpuid (fun l s => ⟨l, s, 3, 4⟩) ⟨0x40000000, 7, 8, 9, 100⟩
      = { rax := 0x40000001, rbx := 0x524D5652, rcx := 0x56524D56,
          rdx := 0x4D56524D, rip := 102 } :=
  handle_cpuid_hypervisor_leaf (fun l s => ⟨l, s, 3, 4⟩)
    ⟨0x40000000, 7, 8, 9, 100⟩ (by decide)

/-! ### Claim C6: the IO_INSTRUCTION arm of `run` (src/vmx/vcpu.rs:1408) -/

/-- Access width of an I/O exit (`AccessWidth` of the `axvcpu` crate). -/
inductive AccessWidth where
  | Byte
  | Word
  | Dword
  | Qword
  deriving DecidableEq, Repr

/-- Conversion `AccessWidth::try_from(access_size as usize)`. -/
def AccessWidth.tryFrom (n : Nat) : Option AccessWidth :=
  if n = 1 then some .Byte
  else if n = 2 then some .Word
  else if n = 4 then some .Dword
  else if n = 8 then some .Qword
  else none

/-- Mask corresponding to `width.bits_range()` in
`rax.get_bits(width.bits_range())`. -/
def AccessWidth.mask : AccessWidth → Nat
  | .Byte => 2 ^ 8 - 1
  | .Word => 2 ^ 16 - 1
  | .Dword => 2 ^ 32 - 1
  | .Qword => 2 ^ 64 - 1

/-- Decoded I/O-exit information (`VmxIoExitInfo`, vmx/vmcs.rs). -/
structure VmxIoExitInfo where
  port : Nat
  access_size : Nat
  is_string : Bool
  is_in : Bool
  is_repeat : Bool
  deriving DecidableEq, Repr

/-- Neutral exit reasons surfaced by `run` (`AxVCpuExitReason` of the
`axvcpu` crate); only the constructors reachable from the
IO_INSTRUCTION arm are modelled. -/
inductive ExitReason where
  | SystemDown
  | IoRead (port : Nat) (width : AccessWidth)
  | IoWrite (port : Nat) (width : AccessWidth) (data : Nat)
  | Halt
  deriving DecidableEq, Repr

/-- Constant `QEMU_EXIT_PORT` (src/vmx/vcpu.rs:42). -/
def QEMU_EXIT_PORT : Nat := 0x604

/-- Constant `QEMU_EXIT_MAGIC` (src/vmx/vcpu.rs:43). -/
def QEMU_EXIT_MAGIC : Nat := 0x2000

/-- The `VmxExitReason::IO_INSTRUCTION` arm of `run`
(src/vmx/vcpu.rs:1408-1448): RIP is advanced by the exit instruction
length first; string/repeat variants and invalid widths surface `Halt`;
an IN surfaces `IoRead`; an OUT to `QEMU_EXIT_PORT` with width `Word`
and RAX equal to `QEMU_EXIT_MAGIC` surfaces `SystemDown`; any other OUT
surfaces `IoWrite` with the width-masked RAX as data.  Returns the new
RIP and the surfaced reason. -/
def handle_io_instruction (io : VmxIoExitInfo) (rax rip instr_len : Nat) :
    Nat × ExitReason :=
  (rip + instr_len,
    if io.is_repeat || io.is_string then ExitReason.Halt
    else
      match AccessWidth.tryFrom io.access_size with
      | none => ExitReason.Halt
      | some width =>
        if io.is_in then ExitReason.IoRead io.port width
        else if io.port = QEMU_EXIT_PORT ∧ width = AccessWidth.Word ∧
            rax = QEMU_EXIT_MAGIC then
          ExitReason.SystemDown
        else ExitReason.IoWrite io.port width (rax &&& width.mask))

/-- C6: a non-string, non-repeat OUT of width Word to port 0x604 with
RAX = 0x2000 surfaces `SystemDown` with RIP advanced past the
instruction; with the same shape but any other port or any other RAX
value it surfaces `IoWrite { port, width, data }` instead (data being
the low 16 bits of RAX). -/
theorem io_exit_system_down (io : VmxIoExitInfo) (rax rip instr_len : Nat)
    (hs : io.is_string = false) (hr : io.is_repeat = false)
    (hin : io.is_in = false) (hw : io.access_size = 2) :
    (io.port = QEMU_EXIT_PORT ∧ rax = QEMU_EXIT_MAGIC →
      handle_io_instruction io rax rip instr_len
        = (rip + instr_len, ExitReason.SystemDown)) ∧
      (io.port ≠ QEMU_EXIT_PORT ∨ rax ≠ QEMU_EXIT_MAGIC →
        handle_io_instruction io rax rip instr_len
          = (rip + instr_len,
              ExitReason.IoWrite io.port AccessWidth.Word
                (rax &&& (2 ^ 16 - 1)))) := by
  have hwidth : AccessWidth.tryFrom io.access_size = some AccessWidth.Word := by
    rw [hw]; decide
  constructor
  · rintro ⟨hp, hm⟩
    simp [handle_io_instruction, hs, hr, hin, hwidth, hp, hm]
  · rintro (hne | hne) <;>
      simp [handle_io_instruction, hs, hr, hin, hwidth, hne, AccessWidth.mask]

/-- Witness for `io_exit_system_down` at concrete inputs. -/
theorem io_exit_system_down_witness :
    ((⟨0x604, 2, false, false, false⟩ : VmxIoExitInfo).port = QEMU_EXIT_PORT ∧
        (0x2000 : Nat) = QEMU_EXIT_MAGIC →
      handle_io_instruction ⟨0x604, 2, false, false, false⟩ 0x2000 50 2
        = (52, ExitReason.SystemDown)) ∧
      ((⟨0x604, 2, false, false, false⟩ : VmxIoExitInfo).port ≠ QEMU_EXIT_PORT ∨
          (0x2000 : Nat) ≠ QEMU_EXIT_MAGIC →
        handle_io_instruction ⟨0x604, 2, false, false, false⟩ 0x2000 50 2
          = (52, ExitReason.IoWrite 0x604 AccessWidth.Word
              (0x2000 &&& (2 ^ 16 - 1)))) :=
  io_exit_system_down ⟨0x604, 2, false, false, false⟩ 0x2000 50 2
    rfl rfl rfl rfl

/-! ### Claim C1: `VmxVcpu::inject_pending_events` (src/vmx/vcpu.rs:978) -/

/-- Bit mask of RFLAGS.IF (`RFlags::INTERRUPT_FLAG`, bit 9). -/
def RFLAGS_INTERRUPT_FLAG : Nat := 1 <<< 9

/-- VMCS guest/control state read and written by the injection step. -/
structure InjVmcs where
  rflags : Nat
  interruptibility : Nat
  primaryCtrls : Nat
  entryIntInfo : Option (Nat × Option Nat)
  deriving DecidableEq, Repr

/-- The vCPU state relevant to event injection: the pending-event FIFO
(`VecDeque<(u8, Option<u32>)>`, front = head) and the VMCS state. -/
structure InjVcpu where
  pending_events : List (Nat × Option Nat)
  vmcs : InjVmcs
  deriving DecidableEq, Repr

/-- Function `VmxVcpu::allow_interrupt` (src/vmx/vcpu.rs:970-975): guest
RFLAGS.IF is set and the guest interruptibility state is zero. -/
def allow_interrupt (s : InjVmcs) : Bool :=
  (s.rflags &&& RFLAGS_INTERRUPT_FLAG != 0) && (s.interruptibility == 0)

/-- Modelled from the spec: `vmcs::inject_event` lives in src/vmx/vmcs.rs,
which is not among the provided sources; per the spec it writes the
VM-entry event-injection field with vector, type, optional error code and
the valid bit.  Modelled as recording the injected pair in the
`entryIntInfo` field. -/
def inject_event (vector : Nat) (err_code : Option Nat) (s : InjVmcs) :
    InjVmcs :=
  { s with entryIntInfo := some (vector, err_code) }

/-- Action of `set_interrupt_window` on the modelled VMCS state. -/
def set_interrupt_window_vmcs (enable : Bool) (s : InjVmcs) : InjVmcs :=
  { s with primaryCtrls := set_interrupt_window enable s.primaryCtrls }

/-- Function `VmxVcpu::inject_pending_events` (src/vmx/vcpu.rs:978-995):
peek the FIFO front; if the vector is below 32 or `allow_interrupt()`
holds, inject the event and pop the FIFO; otherwise enable
interrupt-window exiting.  An empty FIFO leaves everything unchanged. -/
def inject_pending_events (v : InjVcpu) : InjVcpu :=
  match v.pending_events with
  | [] => v
  | event :: rest =>
    if decide (event.1 < 32) || allow_interrupt v.vmcs then
      { v with
        pending_events := rest,
        vmcs := inject_event event.1 event.2 v.vmcs }
    else
      { v with vmcs := set_interrupt_window_vmcs true v.vmcs }

lemma allow_interrupt_iff (s : InjVmcs) :
    allow_interrupt s = true ↔ (s.rflags.testBit 9 = true ∧ s.interruptibility = 0) := by
  unfold allow_interrupt RFLAGS_INTERRUPT_FLAG
  rw [Nat.one_shiftLeft, Nat.and_two_pow]
  cases h : s.rflags.testBit 9 <;> simp [h]

/-- C1: whenever the pending-event FIFO is non-empty, the injection step
inspects the head `(vector, err_code)`.  If `vector < 32`, or guest
RFLAGS.IF is set and the guest interruptibility state is zero, the event
is written to the VM-entry event-injection field and the FIFO length
decreases by exactly one; otherwise the interrupt-window-exiting control
(bit 2 of the primary controls) is set and the FIFO is unchanged. -/
theorem inject_pending_events_spec (v : InjVcpu) (vec : Nat)
    (err : Option Nat) (rest : List (Nat × Option Nat))
    (hpe : v.pending_events = (vec, err) :: rest)
    (hctrl : v.vmcs.primaryCtrls < 2 ^ 32) :
    (vec < 32 ∨ (v.vmcs.rflags.testBit 9 = true ∧ v.vmcs.interruptibility = 0) →
      (inject_pending_events v).vmcs.entryIntInfo = some (vec, err) ∧
        (inject_pending_events v).pending_events = rest ∧
        (inject_pending_events v).pending_events.length + 1
          = v.pending_events.length) ∧
      (¬(vec < 32 ∨ (v.vmcs.rflags.testBit 9 = true ∧ v.vmcs.interruptibility = 0)) →
        (inject_pending_events v).pending_events = v.pending_events ∧
          (inject_pending_events v).vmcs.primaryCtrls.testBit 2 = true ∧
          (inject_pending_events v).vmcs.entryIntInfo = v.vmcs.entryIntInfo) := by
  have hred : inject_pending_events v =
      (if decide (vec < 32) || allow_interrupt v.vmcs then
        { v with pending_events := rest, vmcs := inject_event vec err v.vmcs }
      else { v with vmcs := set_interrupt_window_vmcs true v.vmcs }) := by
    unfold inject_pending_events
    rw [hpe]
  rw [hred]
  constructor
  · intro hcond
    have hb : (decide (vec < 32) || allow_interrupt v.vmcs) = true := by
      rcases hcond with hlt | hai
      · simp [hlt]
      · simp [(allow_interrupt_iff v.vmcs).mpr hai]
    rw [if_pos (by rw [hb])]
    refine ⟨rfl, rfl, by rw [hpe]; simp⟩
  · intro hcond
    push_neg at hcond
    obtain ⟨hge, hai⟩ := hcond
    have hnai : allow_interrupt v.vmcs = false := by
      cases hab : allow_interrupt v.vmcs
      · rfl
      · obtain ⟨hb9, hbi⟩ := (allow_interrupt_iff v.vmcs).mp hab
        exact absurd hbi (hai hb9)
    have hb : (decide (vec < 32) || allow_interrupt v.vmcs) = false := by
      simp [hnai, hge]
    rw [if_neg (by rw [hb]; simp)]
    refine ⟨by rw [hpe], ?_, rfl⟩
    exact (set_interrupt_window_frame true v.vmcs.primaryCtrls hctrl).1

/-- Witness for `inject_pending_events_spec`: vector 0x20 queued while
RFLAGS.IF is clear leaves the FIFO unchanged and sets the window bit. -/
theorem inject_pending_events_spec_witness :
    ((0x20 : Nat) < 32 ∨
        ((0x2 : Nat).testBit 9 = true ∧ (0 : Nat) = 0) →
      (inject_pending_events
          ⟨[(0x20, none)], ⟨0x2, 0, 0, none⟩⟩).vmcs.entryIntInfo
          = some (0x20, none) ∧
        (inject_pending_events
            ⟨[(0x20, none)], ⟨0x2, 0, 0, none⟩⟩).pending_events = [] ∧
        (inject_pending_events
            ⟨[(0x20, none)], ⟨0x2, 0, 0, none⟩⟩).pending_events.length + 1
          = ([((0x20 : Nat), (none : Option Nat))]).length) ∧
      (¬((0x20 : Nat) < 32 ∨
          ((0x2 : Nat).testBit 9 = true ∧ (0 : Nat) = 0)) →
        (inject_pending_events
            ⟨[(0x20, none)], ⟨0x2, 0, 0, none⟩⟩).pending_events
            = [(0x20, none)] ∧
          (inject_pending_events
              ⟨[(0x20, none)], ⟨0x2, 0, 0, none⟩⟩).vmcs.primaryCtrls.testBit 2
            = true ∧
          (inject_pending_events
              ⟨[(0x20, none)], ⟨0x2, 0, 0, none⟩⟩).vmcs.entryIntInfo = none) :=
  inject_pending_events_spec ⟨[(0x20, none)], ⟨0x2, 0, 0, none⟩⟩
    0x20 none [] rfl (by norm_num)

/-! ### Claim C7: `setup` (src/vmx/vcpu.rs:1361) / `setup_vmcs` (453) -/

/-- Outcome of a call that may return, fail with an error, or panic
(a Rust `unwrap()` of `None`). -/
inductive CallOutcome where
  | ok
  | err (e : AxError)
  | panicked
  deriving DecidableEq, Repr

/-- Outcomes of the hardware interactions `setup_vmcs` performs around
the `entry` check: `vmclear`, `bind_to_current_processor` (vmptrld plus
host-state writes), and everything after the guest-state dispatch
(guest writes, control setup, unbind), which the claim does not
constrain. -/
structure SetupEnv where
  vmclearOk : Bool
  bindOk : Bool
  rest : CallOutcome
  deriving DecidableEq, Repr

/-- Function `VmxVcpu::setup_vmcs` (src/vmx/vcpu.rs:453-480): vmclear,
bind, then either adopt the provided host context or — for a fresh
start — require `entry`, failing with `InvalidInput` when it is `None`
(`entry.ok_or_else(... InvalidInput)`). -/
def setup_vmcs (env : SetupEnv) (_ept_root : Nat) (entry : Option Nat)
    (ctx : Option Unit) : CallOutcome :=
  if !env.vmclearOk then CallOutcome.err AxError.BadState
  else if !env.bindOk then CallOutcome.err AxError.BadState
  else
    match ctx with
    | some _ => env.rest
    | none =>
      match entry with
      | none => CallOutcome.err AxError.InvalidInput
      | some _ => env.rest

/-- Function `setup` of the `AxArchVCpu` impl (src/vmx/vcpu.rs:1361-1363):
`self.setup_vmcs(self.ept_root.unwrap(), self.entry, None)` — the
`unwrap()` of an unset `ept_root` panics before `setup_vmcs` runs. -/
def setup (env : SetupEnv) (entry : Option Nat) (ept_root : Option Nat) :
    CallOutcome :=
  match ept_root with
  | none => CallOutcome.panicked
  | some r => setup_vmcs env r entry none

/-- C7 counterexample: calling `setup` with `set_ept_root` never called
(`ept_root = None`, here with `entry` set and all hardware steps
succeeding) panics on the `unwrap()`; it does not return the
`InvalidInput` error to the caller as the claim states. -/
theorem setup_without_ept_root_counterexample :
    setup ⟨true, true, CallOutcome.ok⟩ (some 0x8000) none
        = CallOutcome.panicked ∧
      CallOutcome.panicked ≠ CallOutcome.err AxError.InvalidInput := by
  decide

/-- C7 (amended): `setup()` without a prior `set_entry()` (with
`ept_root` set, and `vmclear`/bind succeeding) returns `InvalidInput`
to the caller; but `setup()` without a prior `set_ept_root()` panics on
`unwrap()` instead of returning an error. -/
theorem setup_missing_config (env : SetupEnv) (r : Nat)
    (hv : env.vmclearOk = true) (hb : env.bindOk = true) :
    setup env none (some r) = CallOutcome.err AxError.InvalidInput ∧
      ∀ entry, setup env entry none = CallOutcome.panicked := by
  constructor
  · unfold setup setup_vmcs
    rw [hv, hb]
    rfl
  · intro entry
    rfl

/-- Witness for `setup_missing_config` at a concrete environment. -/
theorem setup_missing_config_witness :
    setup ⟨true, true, CallOutcome.ok⟩ none (some 0x1000)
        = CallOutcome.err AxError.InvalidInput ∧
      ∀ entry, setup ⟨true, true, CallOutcome.ok⟩ entry none
        = CallOutcome.panicked :=
  setup_missing_config ⟨true, true, CallOutcome.ok⟩ 0x1000 rfl rfl

/-! ### Claim C5: `VmxPerCpuState::hardware_enable` (src/vmx/percpu.rs:46) -/

/-- Modelled from the spec: the parsed `VmxBasic` view of the
IA32_VMX_BASIC MSR lives in src/vmx/structs.rs, which is not among the
provided sources; per the spec it reports the region size, memory type,
address width, I/O-exit-info and flex-controls capabilities plus the
revision id. -/
structure VmxBasicInfo where
  revision_id : Nat
  region_size : Nat
  mem_type : Nat
  is_32bit_address : Bool
  io_exit_info : Bool
  vmx_flex_controls : Bool
  deriving DecidableEq, Repr

/-- Memory type 6 (write-back), `VmxBasic::VMX_MEMORY_TYPE_WRITE_BACK`. -/
def VMX_MEMORY_TYPE_WRITE_BACK : Nat := 6

/-- Bit 0 of IA32_FEATURE_CONTROL (`FeatureControlFlags::LOCKED`). -/
def FEATURE_CONTROL_LOCKED : Nat := 1 <<< 0

/-- Bit 2 of IA32_FEATURE_CONTROL
(`FeatureControlFlags::VMXON_ENABLED_OUTSIDE_SMX`). -/
def FEATURE_CONTROL_VMXON_OUTSIDE_SMX : Nat := 1 <<< 2

/-- Bit 13 of CR4 (`Cr4Flags::VIRTUAL_MACHINE_EXTENSIONS`). -/
def CR4_VMXE : Nat := 1 <<< 13

/-- Host CPU state read by `hardware_enable`, plus the outcomes of its
two fallible hardware interactions (frame allocation for the VMXON
region, and the `vmxon` instruction itself). -/
structure HwCpuState where
  hasVmxCpuid : Bool
  cr0 : Nat
  cr4 : Nat
  feature_control : Nat
  cr0Fixed0 : Nat
  cr0Fixed1 : Nat
  cr4Fixed0 : Nat
  cr4Fixed1 : Nat
  vmx_basic : VmxBasicInfo
  allocOk : Bool
  vmxonOk : Bool
  deriving DecidableEq, Repr

/-- Side effects of `hardware_enable` that the claim talks about:
whether the VMXON page allocation was attempted, whether CR4.VMXE was
set, and whether the `vmxon` instruction was executed. -/
structure HwTrace where
  allocated : Bool
  cr4VmxeSet : Bool
  vmxonExecuted : Bool
  deriving DecidableEq, Repr

/-- Predicate `is_enabled` (src/vmx/percpu.rs:42-44):
`Cr4::read().contains(VIRTUAL_MACHINE_EXTENSIONS)`. -/
def vmx_is_enabled (s : HwCpuState) : Bool := s.cr4 &&& CR4_VMXE != 0

/-- Macro `cr_is_valid` (src/vmx/percpu.rs:70-80): with Rust operator
precedence the two tests are `((!fixed0 | value) != 0)` and
`((fixed1 | !value) != 0)`, where `!` is the u64 complement. -/
def cr_is_valid (value fixed0 fixed1 : Nat) : Bool :=
  (((fixed0 ^^^ (2 ^ 64 - 1)) ||| value) != 0) &&
    ((fixed1 ||| (value ^^^ (2 ^ 64 - 1))) != 0)

/-- Function `VmxPerCpuState::hardware_enable` (src/vmx/percpu.rs:46-122),
with the enable-XSAVE and feature-control writes (pure state writes that
cannot fail) elided from the trace.  The checks appear in source order;
only after all of them pass is the VMXON region allocated, CR4.VMXE set,
and `vmxon` executed. -/
def hardware_enable (s : HwCpuState) : Except AxError Unit × HwTrace :=
  let t0 : HwTrace := ⟨false, false, false⟩
  if !s.hasVmxCpuid then (Except.error AxError.Unsupported, t0)
  else if vmx_is_enabled s then (Except.error AxError.ResourceBusy, t0)
  else
    let locked := s.feature_control &&& FEATURE_CONTROL_LOCKED != 0
    let vmxon_outside :=
      s.feature_control &&& FEATURE_CONTROL_VMXON_OUTSIDE_SMX != 0
    if locked && !vmxon_outside then (Except.error AxError.Unsupported, t0)
    else if !cr_is_valid s.cr0 s.cr0Fixed0 s.cr0Fixed1 then
      (Except.error AxError.BadState, t0)
    else if !cr_is_valid s.cr4 s.cr4Fixed0 s.cr4Fixed1 then
      (Except.error AxError.BadState, t0)
    else if s.vmx_basic.region_size != 4096 then
      (Except.error AxError.Unsupported, t0)
    else if s.vmx_basic.mem_type != VMX_MEMORY_TYPE_WRITE_BACK then
      (Except.error AxError.Unsupported, t0)
    else if s.vmx_basic.is_32bit_address then
      (Except.error AxError.Unsupported, t0)
    else if !s.vmx_basic.io_exit_info then
      (Except.error AxError.Unsupported, t0)
    else if !s.vmx_basic.vmx_flex_controls then
      (Except.error AxError.Unsupported, t0)
    else if !s.allocOk then
      (Except.error AxError.NoMemory, ⟨true, false, false⟩)
    else if !s.vmxonOk then
      (Except.error AxError.BadState, ⟨true, true, true⟩)
    else (Except.ok (), ⟨true, true, true⟩)

/-- Modelled from the spec (and SDM Vol. 3C Appendix A.7/A.8, which the
source comment above the check cites), for comparison with the source's
test: a control register conforms to the fixed-bit MSR pair iff every
1-bit of FIXED0 is set in the register and no bit outside FIXED1 is
set. -/
def crConformsFixedMasks (value fixed0 fixed1 : Nat) : Bool :=
  (value &&& fixed0 == fixed0) && (value &&& fixed1 == value)

lemma nat_or_eq_zero_iff (a b : Nat) : (a ||| b) = 0 ↔ a = 0 ∧ b = 0 := by
  constructor
  · intro h
    constructor
    · apply Nat.eq_of_testBit_eq
      intro i
      have hb := congrArg (fun n => n.testBit i) h
      simp only [Nat.testBit_or, Nat.zero_testBit, Bool.or_eq_false_iff] at hb
      simp [hb.1]
    · apply Nat.eq_of_testBit_eq
      intro i
      have hb := congrArg (fun n => n.testBit i) h
      simp only [Nat.testBit_or, Nat.zero_testBit, Bool.or_eq_false_iff] at hb
      simp [hb.2]
  · rintro ⟨rfl, rfl⟩
    rfl

lemma cr_is_valid_false_iff (value fixed0 fixed1 : Nat) :
    cr_is_valid value fixed0 fixed1 = false ↔
      ((fixed0 = 2 ^ 64 - 1 ∧ value = 0) ∨
        (fixed1 = 0 ∧ value = 2 ^ 64 - 1)) := by
  unfold cr_is_valid
  rw [Bool.and_eq_false_iff]
  simp only [bne_eq_false_iff_eq, nat_or_eq_zero_iff, Nat.xor_eq_zero]

/-- C5 (code bug): the CR0/CR4 fixed-mask precondition of
`hardware_enable` does not guard `vmxon`.  With Rust operator precedence
the `cr_is_valid` macro (src/vmx/percpu.rs:78) computes
`((!fixed0 | value) != 0) && ((fixed1 | !value) != 0)`, which is false
only in the degenerate cases `fixed0 = u64::MAX ∧ value = 0` or
`fixed1 = 0 ∧ value = u64::MAX` (last conjunct below) — never on real
fixed-MSR values.  Concretely, host CR0 = 0 and CR4 = 0 violate the
architectural masks FIXED0 = 0x80000021/0x2000 (first two conjuncts),
yet `hardware_enable` — with every other precondition satisfied —
returns success with the VMXON page allocated, CR4.VMXE set and `vmxon`
executed (third conjunct), where the claim requires a `BadState` error
before `vmxon`. -/
theorem hardware_enable_mask_violation_not_caught :
    crConformsFixedMasks 0 0x80000021 0xffffffff = false ∧
      crConformsFixedMasks 0 0x2000 0x3767ff = false ∧
      hardware_enable
          ⟨true, 0, 0, 5, 0x80000021, 0xffffffff, 0x2000, 0x3767ff,
            ⟨1, 4096, 6, false, true, true⟩, true, true⟩
        = (Except.ok (), ⟨true, true, true⟩) ∧
      (∀ value fixed0 fixed1, cr_is_valid value fixed0 fixed1 = false ↔
        ((fixed0 = 2 ^ 64 - 1 ∧ value = 0) ∨
          (fixed1 = 0 ∧ value = 2 ^ 64 - 1))) :=
  ⟨by decide, by decide, rfl, cr_is_valid_false_iff⟩

/-! ### Claim C8: `calculate_instruction_length` (src/instruction_emulator.rs:278) -/

/-- CPU mode of the guest (`VmCpuMode`, src/vmx/vcpu.rs:46-51). -/
inductive VmCpuMode where
  | Real
  | Protected
  | Compatibility
  | Mode64
  deriving DecidableEq, Repr

/-- Maximum x86-64 instruction length (src/instruction_emulator.rs:12). -/
def MAX_INSTRUCTION_LENGTH : Nat := 15

/-- Whether a byte is one of the eleven legacy prefixes recognised by
`parse_prefixes` (src/instruction_emulator.rs:239-252). -/
def isLegacyPrefixByte (b : Nat) : Bool :=
  b == 0xF0 || b == 0xF2 || b == 0xF3 || b == 0x2E || b == 0x36 ||
    b == 0x3E || b == 0x26 || b == 0x64 || b == 0x65 || b == 0x66 || b == 0x67

/-- REX prefix fields (`RexPrefix`, src/instruction_emulator.rs:43-52). -/
structure RexPrefix where
  r : Bool
  x : Bool
  b : Bool
  w : Bool
  deriving DecidableEq, Repr

/-- Function `RexPrefix::from_byte`: present iff the high nibble is 4. -/
def RexPrefix.fromByte (byte : Nat) : Option RexPrefix :=
  if byte &&& 0xF0 == 0x40 then
    some ⟨byte &&& 0x04 != 0, byte &&& 0x02 != 0, byte &&& 0x01 != 0,
      byte &&& 0x08 != 0⟩
  else none

/-- Prefix information (`PrefixInfo`, src/instruction_emulator.rs:85-94);
the legacy prefixes are kept as their byte values. -/
structure PrefixInfo where
  legacy_prefixes : List Nat
  rex : Option RexPrefix
  total_length : Nat
  deriving DecidableEq, Repr

/-- The legacy-prefix loop of `parse_prefixes`: consume up to `budget`
legacy-prefix bytes, returning them and the count consumed. -/
def parseLegacy : List Nat → Nat → List Nat × Nat
  | _, 0 => ([], 0)
  | [], _ + 1 => ([], 0)
  | b :: rest, budget + 1 =>
    if isLegacyPrefixByte b then
      let (ps, n) := parseLegacy rest budget
      (b :: ps, n + 1)
    else ([], 0)

/-- Function `parse_prefixes` (src/instruction_emulator.rs:230-275):
legacy prefixes (up to 4), then an optional REX byte; `total_length` is
the number of bytes consumed.  The source's `AxResult` wrapper is always
`Ok` and is dropped. -/
def parse_prefixes (bytes : List Nat) : PrefixInfo :=
  let lp := parseLegacy bytes 4
  match (bytes.drop lp.2).head? with
  | some b =>
    match RexPrefix.fromByte b with
    | some rex => ⟨lp.1, some rex, lp.2 + 1⟩
    | none => ⟨lp.1, none, lp.2⟩
  | none => ⟨lp.1, none, lp.2⟩

/-- Operand/address sizes in bytes (`SizeInfo`). -/
structure SizeInfo where
  operand_size : Nat
  address_size : Nat
  deriving DecidableEq, Repr

/-- Function `SizeInfo::calculate` (src/instruction_emulator.rs:179-227). -/
def SizeInfo.calculate (cpu_mode : VmCpuMode) (pfx : PrefixInfo) : SizeInfo :=
  let defaults : Nat × Nat :=
    match cpu_mode with
    | .Real => (2, 2)
    | .Protected => (4, 4)
    | .Mode64 => (4, 8)
    | .Compatibility => (4, 4)
  let opsz0 :=
    if pfx.legacy_prefixes.any (fun b => b == 0x66) then
      match cpu_mode with
      | .Real | .Protected | .Compatibility =>
        if defaults.1 == 2 then 4 else 2
      | .Mode64 => 2
    else defaults.1
  let addr :=
    if pfx.legacy_prefixes.any (fun b => b == 0x67) then
      match cpu_mode with
      | .Real => 4
      | .Protected | .Compatibility => if defaults.2 == 2 then 4 else 2
      | .Mode64 => 4
    else defaults.2
  let opsz :=
    match pfx.rex with
    | some rex =>
      if rex.w && cpu_mode == VmCpuMode.Mode64 then 8 else opsz0
    | none => opsz0
  ⟨opsz, addr⟩

/-- ModR/M byte fields (`ModRm`). -/
structure ModRm where
  mode : Nat
  reg : Nat
  rm : Nat
  deriving DecidableEq, Repr

/-- Function `ModRm::from_byte`. -/
def ModRm.fromByte (b : Nat) : ModRm :=
  ⟨(b >>> 6) &&& 0x03, (b >>> 3) &&& 0x07, b &&& 0x07⟩

/-- Function `ModRm::needs_sib`. -/
def ModRm.needs_sib (m : ModRm) : Bool := m.mode != 3 && m.rm == 4

/-- Function `ModRm::displacement_length`; `mode` is a two-bit field, so
the source's `unreachable!` arm cannot fire (mapped to 0 here). -/
def ModRm.displacement_length (m : ModRm) (address_size : Nat) : Nat :=
  if m.mode = 0 then (if m.rm = 5 then address_size else 0)
  else if m.mode = 1 then 1
  else if m.mode = 2 then address_size
  else 0

/-- SIB byte fields (`Sib`). -/
structure Sib where
  scale : Nat
  index : Nat
  base : Nat
  deriving DecidableEq, Repr

/-- Function `Sib::from_byte`. -/
def Sib.fromByte (b : Nat) : Sib :=
  ⟨(b >>> 6) &&& 0x03, (b >>> 3) &&& 0x07, b &&& 0x07⟩

/-- Function `Sib::needs_displacement`. -/
def Sib.needs_displacement (s : Sib) (m : ModRm) : Bool :=
  s.base == 5 && (m.mode == 0 || m.mode == 2)

/-- Function `instruction_needs_modrm`
(src/instruction_emulator.rs:367-400), arm for arm. -/
def instruction_needs_modrm (opcode : Nat) (is_two_byte : Bool) : Bool :=
  if is_two_byte then true
  else if opcode = 0x06 ∨ opcode = 0x07 ∨ opcode = 0x0E ∨ opcode = 0x16 ∨
      opcode = 0x17 ∨ opcode = 0x1E ∨ opcode = 0x1F then false
  else if opcode = 0x27 ∨ opcode = 0x2F ∨ opcode = 0x37 ∨ opcode = 0x3F then
    false
  else if 0x40 ≤ opcode ∧ opcode ≤ 0x4F then false
  else if 0x50 ≤ opcode ∧ opcode ≤ 0x5F then false
  else if opcode = 0x60 ∨ opcode = 0x61 then false
  else if 0x70 ≤ opcode ∧ opcode ≤ 0x7F then false
  else if 0x90 ≤ opcode ∧ opcode ≤ 0x97 then false
  else if 0x98 ≤ opcode ∧ opcode ≤ 0x9F then false
  else if 0xA0 ≤ opcode ∧ opcode ≤ 0xA3 then false
  else if 0xA4 ≤ opcode ∧ opcode ≤ 0xA7 then false
  else if 0xA8 ≤ opcode ∧ opcode ≤ 0xAF then false
  else if 0xB0 ≤ opcode ∧ opcode ≤ 0xBF then false
  else if opcode = 0xC2 ∨ opcode = 0xC3 ∨ opcode = 0xCA ∨ opcode = 0xCB then
    false
  else if 0xCC ≤ opcode ∧ opcode ≤ 0xCE then false
  else if opcode = 0xCF then false
  else if opcode = 0xD4 ∨ opcode = 0xD5 then false
  else if 0xE0 ≤ opcode ∧ opcode ≤ 0xE3 then false
  else if 0xE4 ≤ opcode ∧ opcode ≤ 0xE7 then false
  else if opcode = 0xE8 ∨ opcode = 0xE9 then false
  else if opcode = 0xEB then false
  else if 0xEC ≤ opcode ∧ opcode ≤ 0xEF then false
  else if opcode = 0xF1 ∨ opcode = 0xF4 ∨ opcode = 0xF5 ∨
      (0xF8 ≤ opcode ∧ opcode ≤ 0xFD) then false
  else true

/-- The ALU opcodes excluded by the guard of the first arm of
`calculate_immediate_length`. -/
def immGuardOpcodes : List Nat :=
  [0x04, 0x05, 0x0C, 0x0D, 0x14, 0x15, 0x1C, 0x1D,
   0x24, 0x25, 0x2C, 0x2D, 0x34, 0x35, 0x3C, 0x3D]

/-- Function `calculate_immediate_length`
(src/instruction_emulator.rs:403-447), arm for arm in source order; the
source's `AxResult` wrapper is always `Ok` and is dropped. -/
def calculate_immediate_length (opcode : Nat) (is_two_byte : Bool)
    (s : SizeInfo) : Nat :=
  if is_two_byte then 0
  else if opcode ≤ 0x3F ∧ ¬(opcode ∈ immGuardOpcodes) then 0
  else if opcode = 0x04 ∨ opcode = 0x0C ∨ opcode = 0x14 ∨ opcode = 0x1C ∨
      opcode = 0x24 ∨ opcode = 0x2C ∨ opcode = 0x34 ∨ opcode = 0x3C then 1
  else if opcode = 0x6A then 1
  else if 0x70 ≤ opcode ∧ opcode ≤ 0x7F then 1
  else if opcode = 0x80 ∨ opcode = 0x82 ∨ opcode = 0x83 then 1
  else if opcode = 0xA8 then 1
  else if 0xB0 ≤ opcode ∧ opcode ≤ 0xB7 then 1
  else if opcode = 0xC0 ∨ opcode = 0xC1 then 1
  else if opcode = 0xC6 then 1
  else if opcode = 0xCD then 1
  else if 0xD0 ≤ opcode ∧ opcode ≤ 0xD3 then 0
  else if opcode = 0xEB then 1
  else if opcode = 0x05 ∨ opcode = 0x0D ∨ opcode = 0x15 ∨ opcode = 0x1D ∨
      opcode = 0x25 ∨ opcode = 0x2D ∨ opcode = 0x35 ∨ opcode = 0x3D then
    s.operand_size
  else if opcode = 0x68 then s.operand_size
  else if opcode = 0x69 then s.operand_size
  else if opcode = 0x81 then s.operand_size
  else if opcode = 0xA9 then s.operand_size
  else if 0xB8 ≤ opcode ∧ opcode ≤ 0xBF then s.operand_size
  else if opcode = 0xC7 then s.operand_size
  else if opcode = 0xE8 ∨ opcode = 0xE9 then s.operand_size
  else if opcode = 0xC2 ∨ opcode = 0xCA then 2
  else if opcode = 0xC8 then 3
  else 0

/-- Tail of `calculate_instruction_length`: add the immediate length and
apply the final 15-byte bound (src/instruction_emulator.rs:356-363). -/
def instrLenFinish (opcode : Nat) (is_two_byte : Bool) (s : SizeInfo)
    (pos : Nat) : Except AxError Nat :=
  let p := pos + calculate_immediate_length opcode is_two_byte s
  if p > MAX_INSTRUCTION_LENGTH then Except.error AxError.InvalidInput
  else Except.ok p

/-- ModR/M, SIB and displacement handling of
`calculate_instruction_length` (src/instruction_emulator.rs:315-353). -/
def instrLenAfterOpcode (bytes : List Nat) (s : SizeInfo) (opcode : Nat)
    (is_two_byte : Bool) (pos : Nat) : Except AxError Nat :=
  if instruction_needs_modrm opcode is_two_byte then
    if pos ≥ bytes.length then Except.error AxError.InvalidInput
    else if (ModRm.fromByte (bytes.getD pos 0)).needs_sib then
      if pos + 1 ≥ bytes.length then Except.error AxError.InvalidInput
      else
        instrLenFinish opcode is_two_byte s (pos + 2 +
          (if (Sib.fromByte (bytes.getD (pos + 1) 0)).needs_displacement
              (ModRm.fromByte (bytes.getD pos 0)) then
            s.address_size
          else
            (ModRm.fromByte (bytes.getD pos 0)).displacement_length
              s.address_size))
    else
      instrLenFinish opcode is_two_byte s
        (pos + 1 +
          (ModRm.fromByte (bytes.getD pos 0)).displacement_length
            s.address_size)
  else instrLenFinish opcode is_two_byte s pos

/-- Function `calculate_instruction_length`
(src/instruction_emulator.rs:278-364). -/
def calculate_instruction_length (bytes : List Nat) (cpu_mode : VmCpuMode) :
    Except AxError Nat :=
  if bytes.isEmpty then Except.error AxError.InvalidInput
  else if bytes.length > MAX_INSTRUCTION_LENGTH then
    Except.error AxError.InvalidInput
  else if (parse_prefixes bytes).total_length ≥ bytes.length then
    Except.error AxError.InvalidInput
  else if bytes.getD (parse_prefixes bytes).total_length 0 = 0x0F then
    if (parse_prefixes bytes).total_length + 1 ≥ bytes.length then
      Except.error AxError.InvalidInput
    else
      instrLenAfterOpcode bytes
        (SizeInfo.calculate cpu_mode (parse_prefixes bytes))
        (bytes.getD (parse_prefixes bytes).total_length 0) true
        ((parse_prefixes bytes).total_length + 2)
  else
    instrLenAfterOpcode bytes
      (SizeInfo.calculate cpu_mode (parse_prefixes bytes))
      (bytes.getD (parse_prefixes bytes).total_length 0) false
      ((parse_prefixes bytes).total_length + 1)

lemma instrLenFinish_le (opcode : Nat) (itb : Bool) (s : SizeInfo)
    (pos n : Nat) (h : instrLenFinish opcode itb s pos = Except.ok n) :
    n ≤ 15 := by
  unfold instrLenFinish MAX_INSTRUCTION_LENGTH at h
  by_cases hc : pos + calculate_immediate_length opcode itb s > 15
  · rw [if_pos hc] at h
    exact absurd h (by simp)
  · rw [if_neg hc] at h
    have := Except.ok.inj h
    omega

lemma instrLenAfterOpcode_le (bytes : List Nat) (s : SizeInfo)
    (opcode : Nat) (itb : Bool) (pos n : Nat)
    (h : instrLenAfterOpcode bytes s opcode itb pos = Except.ok n) :
    n ≤ 15 := by
  unfold instrLenAfterOpcode at h
  repeat' split at h
  all_goals
    first
      | exact instrLenFinish_le _ _ _ _ _ h
      | exact absurd h (by simp)

/-- C8 counterexample: the one-byte input `[0xB8]` (a truncated
`MOV EAX, imm32`) is accepted in 64-bit mode with result 5, which
exceeds the input length 1. -/
theorem calculate_instruction_length_counterexample :
    calculate_instruction_length [0xB8] VmCpuMode.Mode64 = Except.ok 5 ∧
      ¬(5 ≤ ([0xB8] : List Nat).length) :=
  ⟨rfl, by decide⟩

/-- C8 (amended): every byte sequence the calculator accepts yields a
length of at most 15 (`MAX_INSTRUCTION_LENGTH`) — though possibly more
than the input length when the input is a truncated instruction — and
decoding the same byte sequence again in the same CPU mode returns the
same length. -/
theorem calculate_instruction_length_bounds (bytes : List Nat)
    (mode : VmCpuMode) (n : Nat)
    (h : calculate_instruction_length bytes mode = Except.ok n) :
    n ≤ MAX_INSTRUCTION_LENGTH ∧
      ∀ n', calculate_instruction_length bytes mode = Except.ok n' →
        n' = n := by
  constructor
  · unfold calculate_instruction_length at h
    repeat' split at h
    all_goals
      first
        | exact instrLenAfterOpcode_le _ _ _ _ _ _ h
        | exact absurd h (by simp)
  · intro n' h'
    rw [h] at h'
    exact (Except.ok.inj h').symm

/-- Witness for `calculate_instruction_length_bounds` at `[0xB8]`. -/
theorem calculate_instruction_length_bounds_witness :
    5 ≤ MAX_INSTRUCTION_LENGTH ∧
      ∀ n', calculate_instruction_length [0xB8] VmCpuMode.Mode64
          = Except.ok n' → n' = 5 :=
  calculate_instruction_length_bounds [0xB8] VmCpuMode.Mode64 5 rfl

/-! ### Claim C3: the guest page-table reader (src/page_table.rs) -/

/-- Walk failures (`PagingError` of `page_table_multiarch`); only the
variants the reader produces are modelled. -/
inductive PagingError where
  | NotMapped
  | MappedToHugePage
  deriving DecidableEq, Repr

/-- Page sizes (`PageSize` of `page_table_multiarch`). -/
inductive PageSize where
  | Size4K
  | Size2M
  | Size1G
  deriving DecidableEq, Repr

/-- Raw x86-64 page-table entry (`X64PTE` of `page_table_entry`). -/
structure X64PTE where
  bits : Nat
  deriving DecidableEq, Repr

/-- Bit 0 (`PTF::PRESENT`). -/
def PTE_PRESENT : Nat := 1

/-- Bit 7 (`PTF::HUGE_PAGE`). -/
def PTE_HUGE : Nat := 1 <<< 7

/-- Physical-address bits 12..52 of an entry. -/
def PTE_PHYS_ADDR_MASK : Nat := 0x000ffffffffff000

def X64PTE.is_present (e : X64PTE) : Bool := e.bits &&& PTE_PRESENT != 0

def X64PTE.is_huge (e : X64PTE) : Bool := e.bits &&& PTE_HUGE != 0

def X64PTE.paddr (e : X64PTE) : Nat := e.bits &&& PTE_PHYS_ADDR_MASK

/-- Index functions (src/page_table.rs:10-28); `ENTRY_COUNT = 512`. -/
def p5_index (vaddr : Nat) : Nat := (vaddr >>> (12 + 36)) &&& (512 - 1)

def p4_index (vaddr : Nat) : Nat := (vaddr >>> (12 + 27)) &&& (512 - 1)

def p3_index (vaddr : Nat) : Nat := (vaddr >>> (12 + 18)) &&& (512 - 1)

def p2_index (vaddr : Nat) : Nat := (vaddr >>> (12 + 9)) &&& (512 - 1)

def p1_index (vaddr : Nat) : Nat := (vaddr >>> 12) &&& (512 - 1)

/-- External collaborators of the reader: the EPT translator
(`EPT::guest_phys_to_host_phys`, `None` on translation failure) and the
host memory holding the 512-entry tables (`hpa → index → entry`). -/
structure WalkEnv where
  translate : Nat → Option Nat
  mem : Nat → Nat → X64PTE

/-- Function `GuestPageTable64::table_of` (src/page_table.rs:157-167):
translate the table's guest-physical address and read its entries. -/
def table_of (env : WalkEnv) (gpa : Nat) :
    Except PagingError (Nat → X64PTE) :=
  match env.translate gpa with
  | some hpa => Except.ok (env.mem hpa)
  | none => Except.error PagingError.NotMapped

/-- Function `GuestPageTable64::next_table` (src/page_table.rs:169-179):
absent entries fail `NotMapped`, huge entries fail `MappedToHugePage`,
otherwise descend. -/
def next_table (env : WalkEnv) (e : X64PTE) :
    Except PagingError (Nat → X64PTE) :=
  if !e.is_present then Except.error PagingError.NotMapped
  else if e.is_huge then Except.error PagingError.MappedToHugePage
  else table_of env e.paddr

/-- The `let p3 = if self.levels == 3 ... else if == 4 ... else ...`
block of `GuestPageTable64::get_entry` (src/page_table.rs:184-205):
resolve the table of the third level.  Note the level-5 path performs an
explicit huge test on the 5th- and 4th-level entries before
`next_table`, while the level-4 path does not. -/
def getP3 (env : WalkEnv) (root_paddr levels vaddr : Nat) :
    Except PagingError (Nat → X64PTE) :=
  if levels = 3 then table_of env root_paddr
  else if levels = 4 then
    match table_of env root_paddr with
    | Except.error e => Except.error e
    | Except.ok p4 => next_table env (p4 (p4_index vaddr))
  else
    match table_of env root_paddr with
    | Except.error e => Except.error e
    | Except.ok p5 =>
      if (p5 (p5_index vaddr)).is_huge then
        Except.error PagingError.MappedToHugePage
      else
        match next_table env (p5 (p5_index vaddr)) with
        | Except.error e => Except.error e
        | Except.ok p4 =>
          if (p4 (p4_index vaddr)).is_huge then
            Except.error PagingError.MappedToHugePage
          else next_table env (p4 (p4_index vaddr))

/-- The common lower half of `get_entry` (src/page_table.rs:207-221):
huge third-level entries return 1 GiB pages, huge second-level entries
2 MiB, and the first-level entry a 4 KiB page. -/
def walkFromP3 (env : WalkEnv) (vaddr : Nat)
    (p3res : Except PagingError (Nat → X64PTE)) :
    Except PagingError (X64PTE × PageSize) :=
  match p3res with
  | Except.error e => Except.error e
  | Except.ok p3 =>
    if (p3 (p3_index vaddr)).is_huge then
      Except.ok (p3 (p3_index vaddr), PageSize.Size1G)
    else
      match next_table env (p3 (p3_index vaddr)) with
      | Except.error e => Except.error e
      | Except.ok p2 =>
        if (p2 (p2_index vaddr)).is_huge then
          Except.ok (p2 (p2_index vaddr), PageSize.Size2M)
        else
          match next_table env (p2 (p2_index vaddr)) with
          | Except.error e => Except.error e
          | Except.ok p1 => Except.ok (p1 (p1_index vaddr), PageSize.Size4K)

/-- Function `GuestPageTable64::get_entry` (src/page_table.rs:181-221). -/
def get_entry (env : WalkEnv) (root_paddr levels vaddr : Nat) :
    Except PagingError (X64PTE × PageSize) :=
  walkFromP3 env vaddr (getP3 env root_paddr levels vaddr)

/-- Bit 31 (`Cr0Flags::PAGING`). -/
def CR0_PG : Nat := 1 <<< 31

/-- Bit 5 (`Cr4Flags::PHYSICAL_ADDRESS_EXTENSION`). -/
def CR4_PAE : Nat := 1 <<< 5

/-- Bit 10 (`EferFlags::LONG_MODE_ACTIVE`). -/
def EFER_LMA : Nat := 1 <<< 10

/-- Function `VmxVcpu::get_paging_level` (src/vmx/vcpu.rs:802-821):
0 without paging, 2 without PAE, 3 with PAE, 4 in long mode. -/
def get_paging_level (cr0 cr4 efer : Nat) : Nat :=
  if cr0 &&& CR0_PG != 0 then
    if cr4 &&& CR4_PAE != 0 then
      if efer &&& EFER_LMA != 0 then 4 else 3
    else 2
  else 0

/-- Modelled from the spec (for comparison with the source, not taken
from it): the 32-bit two-level walk the claim describes for level 2,
with 10-bit index fields at bit offsets 22 and 12. -/
def get_entry_spec32 (env : WalkEnv) (root_paddr vaddr : Nat) :
    Except PagingError (X64PTE × PageSize) :=
  match table_of env root_paddr with
  | Except.error e => Except.error e
  | Except.ok p2 =>
    if (p2 ((vaddr >>> 22) &&& 1023)).is_huge then
      Except.error PagingError.MappedToHugePage
    else
      match next_table env (p2 ((vaddr >>> 22) &&& 1023)) with
      | Except.error e => Except.error e
      | Except.ok p1 =>
        Except.ok (p1 ((vaddr >>> 12) &&& 1023), PageSize.Size4K)

/-- Concrete memory for the counterexample: the root table (host-phys 0)
maps index 1 to a present entry pointing at 0x2000, and the table at
0x2000 maps index 0 to a present page entry; identity EPT. -/
def c3mem : Nat → Nat → X64PTE := fun hpa idx =>
  if hpa = 0 ∧ idx = 1 then ⟨0x2001⟩
  else if hpa = 0x2000 ∧ idx = 0 then ⟨0x3001⟩
  else ⟨0⟩

def c3env : WalkEnv := ⟨fun gpa => some gpa, c3mem⟩

/-- C3 counterexample: for a level-2 (32-bit) guest configuration the
reader does not perform the claimed 10-bit/two-level walk.  At
guest-virtual 0x40_0000 with the page tables of `c3mem`, the claimed
32-bit semantics resolves a 4 KiB page, but `get_entry` with
`levels = 2` takes the 5-level path (9-bit index fields) and fails
`NotMapped`. -/
theorem get_entry_level2_counterexample :
    get_entry c3env 0 2 0x400000 = Except.error PagingError.NotMapped ∧
      get_entry_spec32 c3env 0 0x400000
        = Except.ok (⟨0x3001⟩, PageSize.Size4K) ∧
      (Except.error PagingError.NotMapped :
          Except PagingError (X64PTE × PageSize))
        ≠ Except.ok (⟨0x3001⟩, PageSize.Size4K) :=
  ⟨rfl, rfl, fun h => Except.noConfusion h⟩

lemma getP3_congr (env : WalkEnv) (root lvl : Nat) {v v' : Nat}
    (h5 : p5_index v = p5_index v') (h4 : p4_index v = p4_index v') :
    getP3 env root lvl v = getP3 env root lvl v' := by
  unfold getP3
  rw [h5, h4]

lemma walkFromP3_congr (env : WalkEnv) {v v' : Nat}
    (h3 : p3_index v = p3_index v') (h2 : p2_index v = p2_index v')
    (h1 : p1_index v = p1_index v')
    (p3res : Except PagingError (Nat → X64PTE)) :
    walkFromP3 env v p3res = walkFromP3 env v' p3res := by
  unfold walkFromP3
  rw [h3, h2, h1]

lemma walkFromP3_huge_sizes (env : WalkEnv) (v : Nat)
    (p3res : Except PagingError (Nat → X64PTE)) (e : X64PTE)
    (ps : PageSize) (h : walkFromP3 env v p3res = Except.ok (e, ps)) :
    (ps = PageSize.Size1G ∨ ps = PageSize.Size2M) → e.is_huge = true := by
  intro hps
  unfold walkFromP3 at h
  repeat' split at h
  all_goals
    first
      | (simp only [Except.ok.injEq, Prod.mk.injEq] at h
         obtain ⟨he, hps2⟩ := h
         subst he
         first
           | assumption
           | (subst hps2
              rcases hps with h1 | h1 <;> simp at h1))
      | simp at h

/-- C3 (amended): the reader distinguishes only levels 3 and 4; every
other level value — including 0 (no paging) and 2 (32-bit) — takes the
5-level path, so there is no 10-bit index extraction: the walk reads the
virtual address only through the five 9-bit fields at bit offsets 12,
21, 30, 39, 48.  An absent entry fails `NotMapped` and a huge entry met
while descending fails `MappedToHugePage`; a huge-page bit
short-circuits the walk, returning the entry with 1 GiB page size at the
third level and 2 MiB at the second.  The vCPU's level computation
yields only 0, 2, 3 or 4 (never 5). -/
theorem get_entry_structure (env : WalkEnv) (root v : Nat) :
    (∀ lvl, lvl ≠ 3 → lvl ≠ 4 →
      get_entry env root lvl v = get_entry env root 5 v) ∧
    (∀ lvl v', p5_index v = p5_index v' → p4_index v = p4_index v' →
      p3_index v = p3_index v' → p2_index v = p2_index v' →
      p1_index v = p1_index v' →
      get_entry env root lvl v = get_entry env root lvl v') ∧
    (∀ lvl e ps, get_entry env root lvl v = Except.ok (e, ps) →
      (ps = PageSize.Size1G ∨ ps = PageSize.Size2M) → e.is_huge = true) ∧
    (∀ e : X64PTE,
      (e.is_present = false → next_table env e = Except.error PagingError.NotMapped) ∧
      (e.is_present = true → e.is_huge = true →
        next_table env e = Except.error PagingError.MappedToHugePage)) ∧
    (∀ cr0 cr4 efer, get_paging_level cr0 cr4 efer = 0 ∨
      get_paging_level cr0 cr4 efer = 2 ∨ get_paging_level cr0 cr4 efer = 3 ∨
      get_paging_level cr0 cr4 efer = 4) := by
  refine ⟨?_, ?_, ?_, ?_, ?_⟩
  · intro lvl h3 h4
    unfold get_entry
    have hp : getP3 env root lvl v = getP3 env root 5 v := by
      unfold getP3
      rw [if_neg h3, if_neg h4, if_neg (by norm_num), if_neg (by norm_num)]
    rw [hp]
  · intro lvl v' h5 h4 h3 h2 h1
    unfold get_entry
    rw [walkFromP3_congr env h3 h2 h1, getP3_congr env root lvl h5 h4]
  · intro lvl e ps h
    exact walkFromP3_huge_sizes env v _ e ps h
  · intro e
    constructor
    · intro hp
      unfold next_table
      rw [if_pos (by rw [hp]; rfl)]
    · intro hp hh
      unfold next_table
      rw [if_neg (by rw [hp]; simp), if_pos hh]
  · intro cr0 cr4 efer
    unfold get_paging_level
    split
    · split
      · split
        · right; right; right; rfl
        · right; right; left; rfl
      · right; left; rfl
    · left; rfl

/-- Witness for `get_entry_structure` at concrete inputs: levels 0 and 2
take the 5-level path in `c3env`. -/
theorem get_entry_structure_witness :
    get_entry c3env 0 2 0x400000 = get_entry c3env 0 5 0x400000 ∧
      get_entry c3env 0 0 0x400000 = get_entry c3env 0 5 0x400000 :=
  ⟨(get_entry_structure c3env 0 0x400000).1 2 (by norm_num) (by norm_num),
    (get_entry_structure c3env 0 0x400000).1 0 (by norm_num) (by norm_num)⟩

end X86Vcpu
